import Mathlib

/-!
# presage-capture: the metrics adapter and the SQLite event writer

A shallow embedding of `presage-capture/src/db_writer.cpp`,
`presage-capture/src/metrics_callback.cpp` and `presage-capture/src/main.cpp`.

* A C++ `double` is an IEEE-754 binary64 bit pattern (sign, exponent, fraction) with the
  comparison operators of the language (every comparison with a NaN is false, the two zeros
  compare equal).
* `int64_t` values are integers; the only arithmetic on them is `/ 1000`, which cannot leave
  the 64-bit range, so no wrap-around is written.
* The SQLite connection, the prepared statement and the glog sink are explicit state. What the
  libraries answer (result codes of `sqlite3_open`, `sqlite3_prepare_v2`, `sqlite3_step`, the
  SDK statuses and the frames the SDK delivers) is an input of the functions.
-/

namespace ADPitch

/-- A `std::string`, as the sequence of its `char`s. -/
abbrev CppString := List Char

/-! ## `double` -/

/-- An IEEE-754 binary64 value: sign bit, 11-bit biased exponent, 52-bit fraction. -/
structure Double where
  sign : Bool
  expo : Fin 2048
  frac : Fin 4503599627370496
deriving DecidableEq

namespace Double

/-- NaN: exponent all ones and a non-zero fraction. -/
def isNaN (d : Double) : Bool := d.expo.val == 2047 && d.frac.val != 0

/-- The magnitude bits read as a number; monotone in the absolute value. -/
def mag (d : Double) : Nat := d.expo.val * 4503599627370496 + d.frac.val

/-- Signed magnitude; `+0.0` and `-0.0` both give `0`. -/
def key (d : Double) : Int := if d.sign then -(d.mag : Int) else (d.mag : Int)

/-- The operator `a < b` on doubles. -/
def lt (a b : Double) : Bool := !a.isNaN && !b.isNaN && decide (a.key < b.key)

/-- The operator `a <= b` on doubles. -/
def le (a b : Double) : Bool := !a.isNaN && !b.isNaN && decide (a.key ≤ b.key)

/-- The operator `a > b` on doubles. -/
def gt (a b : Double) : Bool := lt b a

/-- The operator `a >= b` on doubles. -/
def ge (a b : Double) : Bool := le b a

/-- The literal `0` converted to `double`: `+0.0`. -/
def zero : Double := ⟨false, 0, 0⟩

/-- The literal `-1` converted to `double`: `-1.0`. -/
def negOne : Double := ⟨true, 1023, 0⟩

/-- A quiet NaN. -/
def qNaN : Double := ⟨false, 2047, 2251799813685248⟩

/-- The value `72.0` (`1.125 * 2^6`). -/
def seventyTwo : Double := ⟨false, 1029, 562949953421312⟩

end Double

/-! ## SQLite, as far as the writer uses it -/

def SQLITE_OK : Int := 0
def SQLITE_BUSY : Int := 5
def SQLITE_CANTOPEN : Int := 14
def SQLITE_MISUSE : Int := 21
def SQLITE_DONE : Int := 101

/-- The value a parameter of a prepared statement holds after a `sqlite3_bind_*` call: `null`
after `sqlite3_bind_null`, `integer` after `sqlite3_bind_int` and `sqlite3_bind_int64`, `text`
after `sqlite3_bind_text`, and after `sqlite3_bind_double` `real` for every value but a NaN, for
which SQLite binds NULL. -/
inductive SqlValue where
  | null
  | integer (i : Int)
  | real (d : Double)
  | text (s : CppString)
deriving DecidableEq

/-- A prepared statement (`sqlite3_stmt`): the values bound to its positional parameters
(parameter `i` is `params[i-1]`), whether it was stepped since the last reset, and the trace of
the parameter rows it was executed with (one entry per `sqlite3_step`, whatever its result). -/
structure Sqlite3Stmt where
  params : List SqlValue
  busy : Bool
  executed : List (List SqlValue)
deriving DecidableEq

/-- A connection (`sqlite3`): the rows of table `physiology_events`, in insertion order, and the
statements run through `sqlite3_exec`. -/
structure Sqlite3 where
  physiology_events : List (List SqlValue)
  executed_sql : List String
deriving DecidableEq

/-- What the SQLite library answers while a writer is constructed. -/
structure SqliteEnv where
  open_rc : Int
  store : Sqlite3
  prepare_rc : Int

/-- `sqlite3_open`: a usable connection exactly when the result code is `SQLITE_OK`. -/
def sqlite3_open (_db_path : CppString) (env : SqliteEnv) : Int × Option Sqlite3 :=
  (env.open_rc, if env.open_rc = SQLITE_OK then some env.store else none)

/-- `sqlite3_exec` of a statement without result rows; the result code is not looked at. -/
def sqlite3_exec (db : Option Sqlite3) (sql : String) : Option Sqlite3 :=
  db.map fun d => { d with executed_sql := d.executed_sql ++ [sql] }

/-- `sqlite3_prepare_v2`: on `SQLITE_OK` a fresh statement with one unbound (NULL) parameter per
`?` of the SQL text; a null statement otherwise. -/
def sqlite3_prepare_v2 (db : Option Sqlite3) (sql : String) (env : SqliteEnv) :
    Int × Option Sqlite3Stmt :=
  match db with
  | none => (SQLITE_MISUSE, none)
  | some _ =>
    (env.prepare_rc,
      if env.prepare_rc = SQLITE_OK then
        some { params := List.replicate (sql.toList.count '?') SqlValue.null,
               busy := false, executed := [] }
      else none)

/-- `sqlite3_reset`: the statement is ready again; its bindings are kept. -/
def sqlite3_reset (stmt : Option Sqlite3Stmt) : Option Sqlite3Stmt :=
  stmt.map fun s => { s with busy := false }

/-- The common part of the `sqlite3_bind_*` family: parameter `idx` (1-based) takes the value,
unless the statement is null, was stepped and not reset, or has no such parameter. -/
def sqlite3_bind (stmt : Option Sqlite3Stmt) (idx : Nat) (v : SqlValue) : Option Sqlite3Stmt :=
  stmt.map fun s =>
    if s.busy = false ∧ 1 ≤ idx ∧ idx ≤ s.params.length then
      { s with params := s.params.set (idx - 1) v }
    else s

def sqlite3_bind_text (stmt : Option Sqlite3Stmt) (idx : Nat) (s : CppString) :
    Option Sqlite3Stmt :=
  sqlite3_bind stmt idx (SqlValue.text s)

def sqlite3_bind_int64 (stmt : Option Sqlite3Stmt) (idx : Nat) (v : Int) : Option Sqlite3Stmt :=
  sqlite3_bind stmt idx (SqlValue.integer v)

def sqlite3_bind_int (stmt : Option Sqlite3Stmt) (idx : Nat) (v : Int) : Option Sqlite3Stmt :=
  sqlite3_bind stmt idx (SqlValue.integer v)

/-- What `sqlite3_bind_double` stores for a value: SQLite turns a NaN into NULL and keeps
every other double as a REAL. -/
def bound_double (v : Double) : SqlValue :=
  if v.isNaN then SqlValue.null else SqlValue.real v

/-- `sqlite3_bind_double`: the parameter takes the double, or NULL when the double is a NaN. -/
def sqlite3_bind_double (stmt : Option Sqlite3Stmt) (idx : Nat) (v : Double) :
    Option Sqlite3Stmt :=
  sqlite3_bind stmt idx (bound_double v)

def sqlite3_bind_null (stmt : Option Sqlite3Stmt) (idx : Nat) : Option Sqlite3Stmt :=
  sqlite3_bind stmt idx SqlValue.null

/-- `sqlite3_step` of the insert statement. `rc` is the result code the library produces for
this execution: on `SQLITE_DONE` the bound row has been appended to the table, on any other code
the table is unchanged. A null statement is a misuse and touches nothing. -/
def sqlite3_step (rc : Int) (db : Option Sqlite3) (stmt : Option Sqlite3Stmt) :
    Int × Option Sqlite3 × Option Sqlite3Stmt :=
  match db, stmt with
  | some d, some s =>
    let s1 : Sqlite3Stmt := { s with busy := true, executed := s.executed ++ [s.params] }
    if rc = SQLITE_DONE then
      (rc, some { d with physiology_events := d.physiology_events ++ [s.params] }, some s1)
    else (rc, some d, some s1)
  | _, _ => (SQLITE_MISUSE, db, stmt)

/-! ## glog -/

inductive LogSeverity where
  | INFO
  | WARNING
  | ERROR
  | FATAL
deriving DecidableEq

/-- One emitted log message: severity and the literal text of the message (the streamed
run-time values are not kept). -/
structure LogLine where
  severity : LogSeverity
  text : String
deriving DecidableEq

/-- The log sink, and the counter of the one `LOG_EVERY_N` site of the program. -/
structure Glog where
  lines : List LogLine
  occurrences_mod_n : Nat
deriving DecidableEq

/-- `LOG(severity) << text` for a severity below `FATAL`. -/
def LOG (g : Glog) (severity : LogSeverity) (text : String) : Glog :=
  { g with lines := g.lines ++ [⟨severity, text⟩] }

/-- `LOG_EVERY_N(severity, n) << text`: emits on the 1st, (n+1)-th, (2n+1)-th ... occurrence. -/
def LOG_EVERY_N (g : Glog) (severity : LogSeverity) (n : Nat) (text : String) : Glog :=
  let c := g.occurrences_mod_n + 1
  let c := if c > n then c - n else c
  let g := { g with occurrences_mod_n := c }
  if c = 1 then LOG g severity text else g

/-! ## `DBWriter` (db_writer.h, db_writer.cpp) -/

/-- The writer object. `write_event_calls` counts the completed calls of `write_event` on this
object; it is bookkeeping of the embedding, not a member of the class. -/
structure DBWriter where
  db_ : Option Sqlite3
  insert_stmt_ : Option Sqlite3Stmt
  session_id_ : CppString
  write_event_calls : Nat
deriving DecidableEq

/-- The SQL text of the insert statement. -/
def insert_sql : String :=
  "INSERT INTO physiology_events " ++
  "(session_id, timestamp_ms, heart_rate, hrv, breathing_rate, " ++
  " phasic, emotion_score, engagement, blink_rate, is_talking) " ++
  "VALUES (?, ?, ?, ?, ?, ?, ?, ?, ?, ?)"

/-- The constructor `DBWriter::DBWriter`. `LOG(FATAL)` writes its message and terminates the process: the
result is then `Except.error` carrying the log, and no object exists; otherwise the constructed
object and the log. -/
def DBWriter.ctor (db_path session_id : CppString) (env : SqliteEnv) (glog : Glog) :
    Except Glog (DBWriter × Glog) :=
  let (rc, db) := sqlite3_open db_path env
  if rc ≠ SQLITE_OK then
    Except.error (LOG glog LogSeverity.FATAL "Cannot open database: ")
  else
    let db := sqlite3_exec db "PRAGMA journal_mode=WAL;"
    let db := sqlite3_exec db "PRAGMA busy_timeout=5000;"
    let (rc, stmt) := sqlite3_prepare_v2 db insert_sql env
    if rc ≠ SQLITE_OK then
      Except.error (LOG glog LogSeverity.FATAL "Failed to prepare statement: ")
    else
      Except.ok
        ({ db_ := db, insert_stmt_ := stmt, session_id_ := session_id, write_event_calls := 0 },
         LOG glog LogSeverity.INFO "✅ DBWriter initialized for session: ")

/-- The lambda `bind_double` of `write_event`: the value when `val >= 0`, NULL otherwise. -/
def bind_double (stmt : Option Sqlite3Stmt) (idx : Nat) (val : Double) : Option Sqlite3Stmt :=
  if Double.ge val Double.zero then sqlite3_bind_double stmt idx val
  else sqlite3_bind_null stmt idx

/-- `DBWriter::write_event`. `step_rc` is the result code of this call's `sqlite3_step`. -/
def DBWriter.write_event (self : DBWriter) (timestamp_ms : Int)
    (heart_rate hrv breathing_rate phasic emotion_score engagement blink_rate : Double)
    (is_talking : Bool) (step_rc : Int) (glog : Glog) : DBWriter × Glog :=
  let stmt := sqlite3_reset self.insert_stmt_
  let stmt := sqlite3_bind_text stmt 1 self.session_id_
  let stmt := sqlite3_bind_int64 stmt 2 timestamp_ms
  let stmt := bind_double stmt 3 heart_rate
  let stmt := bind_double stmt 4 hrv
  let stmt := bind_double stmt 5 breathing_rate
  let stmt := bind_double stmt 6 phasic
  let stmt := sqlite3_bind_double stmt 7 emotion_score
  let stmt := bind_double stmt 8 engagement
  let stmt := bind_double stmt 9 blink_rate
  let stmt := sqlite3_bind_int stmt 10 (if is_talking then 1 else 0)
  let (rc, db, stmt) := sqlite3_step step_rc self.db_ stmt
  let glog :=
    if rc ≠ SQLITE_DONE then LOG glog LogSeverity.WARNING "Failed to insert physiology event: "
    else glog
  ({ self with db_ := db, insert_stmt_ := stmt,
               write_event_calls := self.write_event_calls + 1 }, glog)

/-! ## The metrics adapter (metrics_callback.cpp) -/

/-- The part of the SDK's `MetricsBuffer` the adapter reads: the outcome of evaluating
`static_cast<double>(metrics.pulse().strict().value())` and the same for `breathing()`;
`none` when the evaluation throws. -/
structure MetricsBuffer where
  pulse : Option Double
  breathing : Option Double
deriving DecidableEq

/-- The `absl::Status` values that occur. -/
inductive Status where
  | OkStatus
  | Error
deriving DecidableEq

/-- `on_metrics_received`. -/
def on_metrics_received (metrics : MetricsBuffer) (timestamp_us : Int) (db_writer : DBWriter)
    (step_rc : Int) (glog : Glog) : Status × DBWriter × Glog :=
  let timestamp_ms := Int.tdiv timestamp_us 1000
  let heart_rate := Double.negOne
  let hrv := Double.negOne
  let breathing_rate := Double.negOne
  let phasic := Double.negOne
  let emotion_score := Double.zero
  let engagement := Double.negOne
  let blink_rate := Double.negOne
  let is_talking := false
  let heart_rate := match metrics.pulse with
    | some v => v
    | none => heart_rate
  let breathing_rate := match metrics.breathing with
    | some v => v
    | none => breathing_rate
  let (db_writer, glog) := db_writer.write_event
    timestamp_ms
    (if Double.gt heart_rate Double.zero then heart_rate else Double.negOne)
    (if Double.gt hrv Double.zero then hrv else Double.negOne)
    (if Double.gt breathing_rate Double.zero then breathing_rate else Double.negOne)
    phasic
    emotion_score
    engagement
    blink_rate
    is_talking
    step_rc glog
  let glog := LOG_EVERY_N glog LogSeverity.INFO 5 "📊 HR= BR= Emotion="
  (Status.OkStatus, db_writer, glog)

/-- One delivery of the SDK callback: the snapshot, its timestamp, and the result code the
insert of that call meets. -/
structure Frame where
  metrics : MetricsBuffer
  timestamp_us : Int
  step_rc : Int
deriving DecidableEq

/-- Sequential invocations of the adapter on one writer, one per frame, in order. -/
def deliver : List Frame → DBWriter → Glog → DBWriter × Glog
  | [], w, g => (w, g)
  | f :: fs, w, g =>
    let r := on_metrics_received f.metrics f.timestamp_us w f.step_rc g
    deliver fs r.2.1 r.2.2

/-! ## `main` (main.cpp) -/

/-- The test `arg.find(p) == 0`: the first occurrence of `p` in `arg` is at position 0. -/
def find_at_zero (arg p : CppString) : Bool := p.isPrefixOf arg

/-- The member `substr(pos)`, used where `pos` does not exceed the length. -/
def substr (s : CppString) (pos : Nat) : CppString := s.drop pos

/-- The three configuration strings of `main`. -/
structure Config where
  api_key : CppString
  session_id : CppString
  db_path : CppString
deriving DecidableEq

/-- The body of the argument loop, for one `argv[i]`. -/
def parse_arg (c : Config) (arg : CppString) : Config :=
  let c := if find_at_zero arg "--api_key=".toList then { c with api_key := substr arg 10 } else c
  let c :=
    if find_at_zero arg "--session_id=".toList then { c with session_id := substr arg 13 } else c
  let c := if find_at_zero arg "--db_path=".toList then { c with db_path := substr arg 10 } else c
  c

/-- The argument loop `for (int i = 1; i < argc; i++)` from the initial values. -/
def parse_args (argv : List CppString) : Config :=
  (argv.drop 1).foldl parse_arg
    { api_key := [], session_id := [], db_path := "../sync-engine/data/saleslens.db".toList }

/-- What the capture SDK does in one run of the process: the status of registering the callback,
the status of `Init`, and the frames handed to the callback during `Run`. -/
structure SdkEnv where
  set_callback_status : Status
  init_status : Status
  frames : List Frame

/-- How the process ends: `main` returns a code, or `LOG(FATAL)` aborts it. -/
inductive Exit where
  | returned (code : Int)
  | aborted
deriving DecidableEq

/-- The observable outcome of one run of `main`: how it ended, what went to `std::cerr`, the
arguments of every `DBWriter` constructor call made (each call opens the store), the writer
object in its last state when one was constructed, and the log. -/
structure MainResult where
  exit : Exit
  stderr : List String
  constructor_calls : List (CppString × CppString)
  db_writer : Option DBWriter
  glog : Glog
deriving DecidableEq

def usage_text : String :=
  "Usage: ./saleslens_capture --api_key=KEY --session_id=ID [--db_path=PATH]\n"

/-- The function `main`. The logging set-up and the construction of the SDK settings and
container have no outcome `main` looks at and are left out; `Run` is the delivery of the frames
to the registered callback. -/
def main (argv : List CppString) (sqlite : SqliteEnv) (sdk : SdkEnv) : MainResult :=
  let glog : Glog := { lines := [], occurrences_mod_n := 0 }
  let c := parse_args argv
  if c.api_key.isEmpty || c.session_id.isEmpty then
    { exit := Exit.returned 1, stderr := [usage_text], constructor_calls := [],
      db_writer := none, glog := glog }
  else
    match DBWriter.ctor c.db_path c.session_id sqlite glog with
    | Except.error glog =>
      { exit := Exit.aborted, stderr := [], constructor_calls := [(c.db_path, c.session_id)],
        db_writer := none, glog := glog }
    | Except.ok (db_writer, glog) =>
      if sdk.set_callback_status ≠ Status.OkStatus then
        { exit := Exit.returned 1, stderr := [],
          constructor_calls := [(c.db_path, c.session_id)], db_writer := some db_writer,
          glog := LOG glog LogSeverity.ERROR "Failed to set metrics callback: " }
      else
        let glog := LOG glog LogSeverity.INFO "🎥 SalesLens capture started for session: "
        let glog := LOG glog LogSeverity.INFO "   Press Ctrl+C to stop."
        if sdk.init_status ≠ Status.OkStatus then
          { exit := Exit.returned 1, stderr := [],
            constructor_calls := [(c.db_path, c.session_id)], db_writer := some db_writer,
            glog := LOG glog LogSeverity.ERROR "Failed to initialize: " }
        else
          let r := deliver sdk.frames db_writer glog
          { exit := Exit.returned 0, stderr := [],
            constructor_calls := [(c.db_path, c.session_id)], db_writer := some r.1,
            glog := r.2 }

/-! ## Reading the state, and the row shape of the table -/

/-- The writer holds an open connection and a prepared insert statement with its ten
parameters. -/
def DBWriter.ready (w : DBWriter) : Bool :=
  match w.db_, w.insert_stmt_ with
  | some _, some s => s.params.length == 10
  | _, _ => false

/-- The value currently bound to parameter `idx` (1-based) of the insert statement. -/
def DBWriter.bound (w : DBWriter) (idx : Nat) : Option SqlValue :=
  match w.insert_stmt_ with
  | some s => s.params[idx - 1]?
  | none => none

/-- The rows of `physiology_events` seen through the writer's connection. -/
def DBWriter.rows (w : DBWriter) : List (List SqlValue) :=
  match w.db_ with
  | some d => d.physiology_events
  | none => []

/-- The parameter rows of all executions of the insert statement so far. -/
def DBWriter.executed (w : DBWriter) : List (List SqlValue) :=
  match w.insert_stmt_ with
  | some s => s.executed
  | none => []

/-- An optional column: the value when it compares `>= 0`, NULL otherwise. -/
def nullable (v : Double) : SqlValue :=
  if Double.ge v Double.zero then SqlValue.real v else SqlValue.null

/-- The ten columns of a `physiology_events` row, as a function of the session id and of the
nine arguments of one `write_event` call. -/
def event_row (session_id : CppString) (timestamp_ms : Int)
    (heart_rate hrv breathing_rate phasic emotion_score engagement blink_rate : Double)
    (is_talking : Bool) : List SqlValue :=
  [SqlValue.text session_id, SqlValue.integer timestamp_ms, nullable heart_rate, nullable hrv,
   nullable breathing_rate, nullable phasic, bound_double emotion_score, nullable engagement,
   nullable blink_rate, SqlValue.integer (if is_talking then 1 else 0)]

/-- A rate column of the adapter: the extracted value when there is one and it is `> 0`. -/
def rate_column (x : Option Double) : SqlValue :=
  match x with
  | some v => if Double.gt v Double.zero then SqlValue.real v else SqlValue.null
  | none => SqlValue.null

/-- The row the adapter hands to the store for one frame. -/
def frame_row (session_id : CppString) (f : Frame) : List SqlValue :=
  [SqlValue.text session_id, SqlValue.integer (Int.tdiv f.timestamp_us 1000),
   rate_column f.metrics.pulse, SqlValue.null, rate_column f.metrics.breathing, SqlValue.null,
   SqlValue.real Double.zero, SqlValue.null, SqlValue.null, SqlValue.integer 0]

/-- A store with no rows yet, opening and preparing without error. -/
def env_ok : SqliteEnv :=
  { open_rc := SQLITE_OK, store := { physiology_events := [], executed_sql := [] },
    prepare_rc := SQLITE_OK }

/-- An empty log. -/
def glog0 : Glog := { lines := [], occurrences_mod_n := 0 }

/-- The writer the constructor yields on `env_ok` for session `abc123`. -/
def writer0 : DBWriter :=
  { db_ := some { physiology_events := [],
                  executed_sql := ["PRAGMA journal_mode=WAL;", "PRAGMA busy_timeout=5000;"] },
    insert_stmt_ := some { params := List.replicate 10 SqlValue.null, busy := false,
                           executed := [] },
    session_id_ := "abc123".toList,
    write_event_calls := 0 }

/-- A frame without pulse and breathing data. -/
def frame_empty (step_rc : Int) : Frame :=
  { metrics := { pulse := none, breathing := none }, timestamp_us := 1500, step_rc := step_rc }


/-! ## Auxiliary facts -/

theorem insert_sql_params : insert_sql.toList.count '?' = 10 := by decide

theorem length_ten {α : Type} (l : List α) (h : l.length = 10) :
    ∃ a1 a2 a3 a4 a5 a6 a7 a8 a9 a10, l = [a1, a2, a3, a4, a5, a6, a7, a8, a9, a10] := by
  match l, h with
  | [a1, a2, a3, a4, a5, a6, a7, a8, a9, a10], _ =>
    exact ⟨a1, a2, a3, a4, a5, a6, a7, a8, a9, a10, rfl⟩

theorem ge_zero_not_nan (v : Double) (h : Double.ge v Double.zero = true) :
    v.isNaN = false := by
  simp only [Double.ge, Double.le, Bool.and_eq_true, Bool.not_eq_true', decide_eq_true_eq] at h
  exact h.1.2

theorem bind_double_eq (stmt : Option Sqlite3Stmt) (idx : Nat) (val : Double) :
    bind_double stmt idx val = sqlite3_bind stmt idx (nullable val) := by
  unfold bind_double nullable sqlite3_bind_double sqlite3_bind_null bound_double
  by_cases h : Double.ge val Double.zero = true
  · simp [h, ge_zero_not_nan val h]
  · simp [h]

theorem ready_iff (w : DBWriter) :
    w.ready = true ↔ ∃ d s, w.db_ = some d ∧ w.insert_stmt_ = some s ∧ s.params.length = 10 := by
  unfold DBWriter.ready
  cases hd : w.db_ <;> cases hs : w.insert_stmt_ <;> simp

/-- On a ready writer, `write_event` leaves the statement bound to `event_row` of its own
arguments, records one execution, appends that row exactly on `SQLITE_DONE`, and logs one warning
otherwise. -/
theorem write_event_eq (w : DBWriter) (d : Sqlite3) (s : Sqlite3Stmt)
    (hd : w.db_ = some d) (hs : w.insert_stmt_ = some s) (hl : s.params.length = 10)
    (ts : Int) (hr hrv br ph em en bl : Double) (talk : Bool) (rc : Int) (g : Glog) :
    w.write_event ts hr hrv br ph em en bl talk rc g =
      ({ db_ := some { d with physiology_events :=
                  if rc = SQLITE_DONE then
                    d.physiology_events ++ [event_row w.session_id_ ts hr hrv br ph em en bl talk]
                  else d.physiology_events },
         insert_stmt_ := some
           { params := event_row w.session_id_ ts hr hrv br ph em en bl talk, busy := true,
             executed := s.executed ++ [event_row w.session_id_ ts hr hrv br ph em en bl talk] },
         session_id_ := w.session_id_,
         write_event_calls := w.write_event_calls + 1 },
       if rc = SQLITE_DONE then g
       else LOG g LogSeverity.WARNING "Failed to insert physiology event: ") := by
  obtain ⟨a1, a2, a3, a4, a5, a6, a7, a8, a9, a10, hp⟩ := length_ten s.params hl
  by_cases hrc : rc = SQLITE_DONE <;>
  simp [DBWriter.write_event, hd, hs, sqlite3_reset, sqlite3_bind_text, sqlite3_bind_int64,
    sqlite3_bind_int, sqlite3_bind_double, bind_double_eq, sqlite3_bind, sqlite3_step,
    event_row, hp, List.set, hrc]

theorem gt_zero_imp_ge_zero (v : Double) (h : Double.gt v Double.zero = true) :
    Double.ge v Double.zero = true := by
  simp only [Double.gt, Double.lt, Double.ge, Double.le, Bool.and_eq_true,
    decide_eq_true_eq] at h ⊢
  exact ⟨h.1, le_of_lt h.2⟩

theorem le_zero_imp_not_gt_zero (v : Double) (h : Double.le v Double.zero = true) :
    Double.gt v Double.zero = false := by
  simp only [Double.le, Bool.and_eq_true, decide_eq_true_eq] at h
  simp only [Double.gt, Double.lt, Bool.and_eq_false_iff, decide_eq_false_iff_not, not_lt]
  exact Or.inr h.2

theorem nullable_negOne : nullable Double.negOne = SqlValue.null := by decide

theorem bound_double_zero : bound_double Double.zero = SqlValue.real Double.zero := by decide

theorem nullable_sanitized (v : Double) :
    nullable (if Double.gt v Double.zero = true then v else Double.negOne) =
      rate_column (some v) := by
  by_cases h : Double.gt v Double.zero = true
  · simp [h, rate_column, nullable, gt_zero_imp_ge_zero v h]
  · simp [h, rate_column, nullable_negOne]

theorem nullable_sanitized_opt (x : Option Double) :
    nullable (if Double.gt (match x with | some v => v | none => Double.negOne) Double.zero = true
        then (match x with | some v => v | none => Double.negOne) else Double.negOne) =
      rate_column x := by
  cases x with
  | none => simp [rate_column, nullable_negOne]
  | some v => exact nullable_sanitized v

/-- On a ready writer the adapter is one `write_event` whose row is `frame_row`. -/
theorem on_metrics_received_eq (w : DBWriter) (d : Sqlite3) (s : Sqlite3Stmt)
    (hd : w.db_ = some d) (hs : w.insert_stmt_ = some s) (hl : s.params.length = 10)
    (m : MetricsBuffer) (ts : Int) (rc : Int) (g : Glog) :
    on_metrics_received m ts w rc g =
      (Status.OkStatus,
       { db_ := some { d with physiology_events :=
                  if rc = SQLITE_DONE then
                    d.physiology_events ++ [frame_row w.session_id_ ⟨m, ts, rc⟩]
                  else d.physiology_events },
         insert_stmt_ := some
           { params := frame_row w.session_id_ ⟨m, ts, rc⟩, busy := true,
             executed := s.executed ++ [frame_row w.session_id_ ⟨m, ts, rc⟩] },
         session_id_ := w.session_id_,
         write_event_calls := w.write_event_calls + 1 },
       LOG_EVERY_N
         (if rc = SQLITE_DONE then g
          else LOG g LogSeverity.WARNING "Failed to insert physiology event: ")
         LogSeverity.INFO 5 "📊 HR= BR= Emotion=") := by
  have hneg : Double.gt Double.negOne Double.zero = false := by decide
  simp only [on_metrics_received, write_event_eq w d s hd hs hl, hneg, event_row, frame_row,
    nullable_sanitized_opt, nullable_negOne, bound_double_zero, Bool.false_eq_true, if_false]

theorem zero_key : Double.zero.key = 0 := by decide

theorem zero_isNaN : Double.zero.isNaN = false := by decide

/-- The three ways a double stands to zero: below it, NaN, or `>= 0`. -/
theorem zero_trichotomy (v : Double) :
    Double.lt v Double.zero = true ∨ Double.isNaN v = true ∨ Double.ge v Double.zero = true := by
  simp only [Double.lt, Double.ge, Double.le, zero_key, zero_isNaN, Bool.and_eq_true,
    decide_eq_true_eq, Bool.not_eq_true', Bool.not_false]
  by_cases hn : v.isNaN = true
  · exact Or.inr (Or.inl hn)
  · have hn2 : v.isNaN = false := by simpa using hn
    by_cases hk : v.key < 0
    · exact Or.inl ⟨⟨hn2, trivial⟩, hk⟩
    · exact Or.inr (Or.inr ⟨⟨trivial, hn2⟩, not_lt.1 hk⟩)

theorem nullable_cases (v : Double) :
    (Double.lt v Double.zero = true → nullable v = SqlValue.null) ∧
    (Double.isNaN v = true → nullable v = SqlValue.null) ∧
    (Double.ge v Double.zero = true → nullable v = SqlValue.real v) ∧
    (∀ x, nullable v = SqlValue.real x → x = v ∧ Double.lt x Double.zero = false) := by
  have hlt : Double.lt v Double.zero = true → Double.ge v Double.zero = false := by
    simp only [Double.lt, Double.ge, Double.le, zero_key, zero_isNaN, Bool.and_eq_true,
      decide_eq_true_eq, Bool.and_eq_false_iff, decide_eq_false_iff_not]
    intro h
    exact Or.inr (by omega)
  have hnan : Double.isNaN v = true → Double.ge v Double.zero = false := by
    simp only [Double.ge, Double.le, Bool.and_eq_false_iff]
    intro h
    exact Or.inl (Or.inr (by simp [h]))
  refine ⟨?_, ?_, ?_, ?_⟩
  · intro h
    simp [nullable, hlt h]
  · intro h
    simp [nullable, hnan h]
  · intro h
    simp [nullable, h]
  · intro x hx
    by_cases hge : Double.ge v Double.zero = true
    · simp only [nullable, hge, if_true, SqlValue.real.injEq] at hx
      subst hx
      refine ⟨rfl, ?_⟩
      cases hl : Double.lt v Double.zero
      · rfl
      · rw [hlt hl] at hge
        exact absurd hge (by simp)
    · simp [nullable, hge] at hx

/-- What a successful construction guarantees. -/
theorem ctor_ok (db_path sid : CppString) (env : SqliteEnv) (g : Glog) (w : DBWriter)
    (g1 : Glog) (h : DBWriter.ctor db_path sid env g = Except.ok (w, g1)) :
    env.open_rc = SQLITE_OK ∧ env.prepare_rc = SQLITE_OK ∧ w.ready = true ∧
    w.session_id_ = sid ∧ w.rows = env.store.physiology_events ∧ w.executed = [] ∧
    w.write_event_calls = 0 := by
  unfold DBWriter.ctor sqlite3_open at h
  by_cases ho : env.open_rc = SQLITE_OK
  · by_cases hp : env.prepare_rc = SQLITE_OK
    · simp only [ho, hp, sqlite3_exec, sqlite3_prepare_v2, Option.map, ne_eq, not_true_eq_false,
        if_true, if_false, Except.ok.injEq, Prod.mk.injEq] at h
      obtain ⟨hw, -⟩ := h
      subst hw
      have hc : List.count '?' insert_sql.data = 10 := insert_sql_params
      simp [ho, hp, DBWriter.ready, DBWriter.rows, DBWriter.executed, hc]
    · simp [ho, hp, sqlite3_exec, sqlite3_prepare_v2] at h
  · simp [ho] at h

/-- A failed open or a failed prepare ends the constructor in `LOG(FATAL)`. -/
theorem ctor_fatal (db_path sid : CppString) (env : SqliteEnv) (g : Glog)
    (h : env.open_rc ≠ SQLITE_OK ∨ env.prepare_rc ≠ SQLITE_OK) :
    DBWriter.ctor db_path sid env g
        = Except.error (LOG g LogSeverity.FATAL "Cannot open database: ") ∨
    DBWriter.ctor db_path sid env g
        = Except.error (LOG g LogSeverity.FATAL "Failed to prepare statement: ") := by
  unfold DBWriter.ctor sqlite3_open
  by_cases ho : env.open_rc = SQLITE_OK
  · have hp : env.prepare_rc ≠ SQLITE_OK := by
      rcases h with h | h
      · exact absurd ho h
      · exact h
    right
    simp [ho, hp, sqlite3_exec, sqlite3_prepare_v2]
  · left
    simp [ho]

/-- Sequential adapter calls on a ready writer: the writer stays ready with its session id, each
frame is one execution of the insert with `frame_row`, and exactly the frames whose insert
returned `SQLITE_DONE` are appended to the table, in order. -/
theorem deliver_spec (frames : List Frame) : ∀ (w : DBWriter) (g : Glog), w.ready = true →
    (deliver frames w g).1.ready = true ∧
    (deliver frames w g).1.session_id_ = w.session_id_ ∧
    (deliver frames w g).1.rows = w.rows ++
      (frames.filter (fun f => decide (f.step_rc = SQLITE_DONE))).map (frame_row w.session_id_) ∧
    (deliver frames w g).1.executed = w.executed ++ frames.map (frame_row w.session_id_) ∧
    (deliver frames w g).1.write_event_calls = w.write_event_calls + frames.length := by
  induction frames with
  | nil =>
    intro w g hw
    simp [deliver, hw]
  | cons f fs ih =>
    intro w g hw
    obtain ⟨fm, ft, frc⟩ := f
    obtain ⟨d, s, hd, hs, hl⟩ := (ready_iff w).1 hw
    have h1 := on_metrics_received_eq w d s hd hs hl fm ft frc g
    have hr1 : (on_metrics_received fm ft w frc g).2.1.ready = true := by
      rw [h1]
      simp [DBWriter.ready, frame_row]
    obtain ⟨i1, i2, i3, i4, i5⟩ := ih _ (on_metrics_received fm ft w frc g).2.2 hr1
    simp only [deliver]
    refine ⟨i1, ?_, ?_, ?_, ?_⟩
    · rw [i2, h1]
    · rw [i3, h1]
      by_cases hrc : frc = SQLITE_DONE <;>
        simp [DBWriter.rows, hd, hrc, List.filter_cons]
    · rw [i4, h1]
      simp [DBWriter.executed, hs]
    · rw [i5, h1]
      simp only [List.length_cons]
      omega

theorem parse_arg_api_key (c : Config) (a : CppString) :
    (parse_arg c a).api_key =
      if find_at_zero a "--api_key=".toList = true then substr a 10 else c.api_key := by
  unfold parse_arg
  cases find_at_zero a "--api_key=".toList <;>
  cases find_at_zero a "--session_id=".toList <;>
  cases find_at_zero a "--db_path=".toList <;>
  simp

theorem parse_arg_session_id (c : Config) (a : CppString) :
    (parse_arg c a).session_id =
      if find_at_zero a "--session_id=".toList = true then substr a 13 else c.session_id := by
  unfold parse_arg
  cases find_at_zero a "--api_key=".toList <;>
  cases find_at_zero a "--session_id=".toList <;>
  cases find_at_zero a "--db_path=".toList <;>
  simp

theorem foldl_api_key_keep (l : List CppString) : ∀ (c : Config),
    (∀ a ∈ l, find_at_zero a "--api_key=".toList = false) →
    (l.foldl parse_arg c).api_key = c.api_key := by
  induction l with
  | nil => intro c _; rfl
  | cons a l ih =>
    intro c h
    rw [List.foldl_cons, ih _ (fun b hb => h b (List.mem_cons_of_mem a hb)), parse_arg_api_key,
      h a (List.mem_cons_self a l)]
    simp

theorem foldl_session_id_keep (l : List CppString) : ∀ (c : Config),
    (∀ a ∈ l, find_at_zero a "--session_id=".toList = false) →
    (l.foldl parse_arg c).session_id = c.session_id := by
  induction l with
  | nil => intro c _; rfl
  | cons a l ih =>
    intro c h
    rw [List.foldl_cons, ih _ (fun b hb => h b (List.mem_cons_of_mem a hb)),
      parse_arg_session_id, h a (List.mem_cons_self a l)]
    simp

theorem drop_one_append (pre l : List CppString) (h : pre ≠ []) :
    (pre ++ l).drop 1 = pre.drop 1 ++ l := by
  cases pre with
  | nil => exact absurd rfl h
  | cons a t => rfl

/-! ## The claims -/

/-- C1: for every snapshot handed to `on_metrics_received` on a ready writer, the heart-rate
column (parameter 3) and the breathing-rate column (parameter 5) are bound to NULL when the
extraction throws or yields a value `<= 0`, and to exactly the extracted value when it is
`> 0`. -/
theorem C1_rate_columns (m : MetricsBuffer) (ts : Int) (w : DBWriter) (rc : Int) (g : Glog)
    (hw : w.ready = true) :
    (m.pulse = none → (on_metrics_received m ts w rc g).2.1.bound 3 = some SqlValue.null) ∧
    (∀ v, m.pulse = some v → Double.le v Double.zero = true →
      (on_metrics_received m ts w rc g).2.1.bound 3 = some SqlValue.null) ∧
    (∀ v, m.pulse = some v → Double.gt v Double.zero = true →
      (on_metrics_received m ts w rc g).2.1.bound 3 = some (SqlValue.real v)) ∧
    (m.breathing = none → (on_metrics_received m ts w rc g).2.1.bound 5 = some SqlValue.null) ∧
    (∀ v, m.breathing = some v → Double.le v Double.zero = true →
      (on_metrics_received m ts w rc g).2.1.bound 5 = some SqlValue.null) ∧
    (∀ v, m.breathing = some v → Double.gt v Double.zero = true →
      (on_metrics_received m ts w rc g).2.1.bound 5 = some (SqlValue.real v)) := by
  obtain ⟨d, s, hd, hs, hl⟩ := (ready_iff w).1 hw
  rw [on_metrics_received_eq w d s hd hs hl]
  refine ⟨?_, ?_, ?_, ?_, ?_, ?_⟩
  · intro h
    simp [DBWriter.bound, frame_row, rate_column, h]
  · intro v h hle
    simp [DBWriter.bound, frame_row, rate_column, h, le_zero_imp_not_gt_zero v hle]
  · intro v h hgt
    simp [DBWriter.bound, frame_row, rate_column, h, hgt]
  · intro h
    simp [DBWriter.bound, frame_row, rate_column, h]
  · intro v h hle
    simp [DBWriter.bound, frame_row, rate_column, h, le_zero_imp_not_gt_zero v hle]
  · intro v h hgt
    simp [DBWriter.bound, frame_row, rate_column, h, hgt]

/-- C1, at a frame with pulse 72.0 and no breathing data on `writer0`: parameter 3 is bound to
72.0. -/
theorem C1_rate_columns_witness :
    (on_metrics_received ⟨some Double.seventyTwo, none⟩ 1500 writer0 SQLITE_DONE glog0).2.1.bound 3
      = some (SqlValue.real Double.seventyTwo) :=
  (C1_rate_columns ⟨some Double.seventyTwo, none⟩ 1500 writer0 SQLITE_DONE glog0
    (by decide)).2.2.1 Double.seventyTwo rfl (by decide)

theorem tdiv_thousand_bounds (t : Int) :
    (0 ≤ t → 1000 * Int.tdiv t 1000 ≤ t ∧ t < 1000 * Int.tdiv t 1000 + 1000) ∧
    (t ≤ 0 → t ≤ 1000 * Int.tdiv t 1000 ∧ 1000 * Int.tdiv t 1000 - 1000 < t) := by
  constructor
  · intro h
    rw [Int.tdiv_eq_ediv h (by norm_num)]
    omega
  · intro h
    have h1 : Int.tdiv t 1000 = -((-t) / 1000) := by
      have h2 : Int.tdiv (-t) 1000 = (-t) / 1000 := Int.tdiv_eq_ediv (by omega) (by norm_num)
      rw [← h2, Int.neg_tdiv, neg_neg]
    rw [h1]
    omega

/-- C3: for every 64-bit `timestamp_us`, `on_metrics_received` on a ready writer binds parameter
2 (`timestamp_ms`) to the quotient `q` of `timestamp_us` by 1000 truncated toward zero: `1000 * q`
lies between 0 and `timestamp_us`, less than 1000 away from it, and `q` fits 64 bits. 1500
microseconds give 1 and 999 microseconds give 0. -/
theorem C3_timestamp_truncation (m : MetricsBuffer) (ts : Int) (w : DBWriter) (rc : Int)
    (g : Glog) (hw : w.ready = true)
    (hlo : -9223372036854775808 ≤ ts) (hhi : ts ≤ 9223372036854775807) :
    (∃ q : Int,
      (on_metrics_received m ts w rc g).2.1.bound 2 = some (SqlValue.integer q) ∧
      q = Int.tdiv ts 1000 ∧
      (0 ≤ ts → 1000 * q ≤ ts ∧ ts < 1000 * q + 1000) ∧
      (ts ≤ 0 → ts ≤ 1000 * q ∧ 1000 * q - 1000 < ts) ∧
      -9223372036854775808 ≤ q ∧ q ≤ 9223372036854775807) ∧
    (on_metrics_received m 1500 w rc g).2.1.bound 2 = some (SqlValue.integer 1) ∧
    (on_metrics_received m 999 w rc g).2.1.bound 2 = some (SqlValue.integer 0) := by
  obtain ⟨d, s, hd, hs, hl⟩ := (ready_iff w).1 hw
  simp only [on_metrics_received_eq w d s hd hs hl]
  refine ⟨⟨Int.tdiv ts 1000, ?_, rfl, (tdiv_thousand_bounds ts).1, (tdiv_thousand_bounds ts).2,
    ?_, ?_⟩, ?_, ?_⟩
  · simp [DBWriter.bound, frame_row]
  · have h := tdiv_thousand_bounds ts
    by_cases h0 : 0 ≤ ts
    · have := h.1 h0
      omega
    · have := h.2 (by omega)
      omega
  · have h := tdiv_thousand_bounds ts
    by_cases h0 : 0 ≤ ts
    · have := h.1 h0
      omega
    · have := h.2 (by omega)
      omega
  · simp [DBWriter.bound, frame_row]
    decide
  · simp [DBWriter.bound, frame_row]
    decide

/-- C3, at `timestamp_us = -1500` on `writer0`: the bound millisecond value is `-1` (truncation,
not the floor `-2`). -/
theorem C3_timestamp_truncation_witness :
    (on_metrics_received ⟨none, none⟩ (-1500) writer0 SQLITE_DONE glog0).2.1.bound 2
      = some (SqlValue.integer (-1)) := by
  obtain ⟨q, hq, hq2, -⟩ := (C3_timestamp_truncation ⟨none, none⟩ (-1500) writer0 SQLITE_DONE
    glog0 (by decide) (by decide) (by decide)).1
  rw [hq, hq2]
  decide

/-- C6: for every snapshot, timestamp, insert result code and writer (ready or not),
`on_metrics_received` returns the OK status and is exactly one `write_event` call on the writer
it was given: the call counter grows by one and the resulting writer is the result of that one
call, with the constant placeholder arguments. -/
theorem C6_one_write_and_ok (m : MetricsBuffer) (ts : Int) (w : DBWriter) (rc : Int)
    (g : Glog) :
    (on_metrics_received m ts w rc g).1 = Status.OkStatus ∧
    (on_metrics_received m ts w rc g).2.1.write_event_calls = w.write_event_calls + 1 ∧
    (∃ hr br : Double,
      (on_metrics_received m ts w rc g).2.1 =
        (w.write_event (Int.tdiv ts 1000) hr Double.negOne br Double.negOne Double.zero
          Double.negOne Double.negOne false rc g).1) := by
  have hneg : Double.gt Double.negOne Double.zero = false := by decide
  refine ⟨rfl, rfl,
    ⟨if Double.gt (match m.pulse with | some v => v | none => Double.negOne) Double.zero = true
        then (match m.pulse with | some v => v | none => Double.negOne) else Double.negOne,
     if Double.gt (match m.breathing with | some v => v | none => Double.negOne) Double.zero
          = true
        then (match m.breathing with | some v => v | none => Double.negOne) else Double.negOne,
     ?_⟩⟩
  simp only [on_metrics_received, hneg, Bool.false_eq_true, if_false]

/-- C9, amended: on a ready writer, for each of the six optional columns (heart_rate 3, hrv 4,
breathing_rate 5, phasic 6, engagement 8, blink_rate 9) `write_event` binds NULL when the
argument is negative and also when it is NaN, and binds the argument itself when it compares
`>= 0`; every double falls in one of these three cases, and no value below zero is ever bound to
these columns. -/
theorem C9_optional_columns (w : DBWriter) (ts : Int)
    (hr hrv br ph em en bl : Double) (talk : Bool) (rc : Int) (g : Glog)
    (hw : w.ready = true) :
    ∀ p ∈ [((3 : Nat), hr), (4, hrv), (5, br), (6, ph), (8, en), (9, bl)],
      (Double.lt p.2 Double.zero = true →
        (w.write_event ts hr hrv br ph em en bl talk rc g).1.bound p.1 = some SqlValue.null) ∧
      (Double.isNaN p.2 = true →
        (w.write_event ts hr hrv br ph em en bl talk rc g).1.bound p.1 = some SqlValue.null) ∧
      (Double.ge p.2 Double.zero = true →
        (w.write_event ts hr hrv br ph em en bl talk rc g).1.bound p.1
          = some (SqlValue.real p.2)) ∧
      (Double.lt p.2 Double.zero = true ∨ Double.isNaN p.2 = true ∨
        Double.ge p.2 Double.zero = true) ∧
      (∀ x, (w.write_event ts hr hrv br ph em en bl talk rc g).1.bound p.1
          = some (SqlValue.real x) → Double.lt x Double.zero = false) := by
  obtain ⟨d, s, hd, hs, hl⟩ := (ready_iff w).1 hw
  rw [write_event_eq w d s hd hs hl]
  intro p hp
  have hb : (DBWriter.bound
      { db_ := some { d with physiology_events :=
                  if rc = SQLITE_DONE then
                    d.physiology_events ++ [event_row w.session_id_ ts hr hrv br ph em en bl talk]
                  else d.physiology_events },
         insert_stmt_ := some
           { params := event_row w.session_id_ ts hr hrv br ph em en bl talk, busy := true,
             executed := s.executed ++ [event_row w.session_id_ ts hr hrv br ph em en bl talk] },
         session_id_ := w.session_id_,
         write_event_calls := w.write_event_calls + 1 } p.1) = some (nullable p.2) := by
    simp only [List.mem_cons, List.mem_singleton, List.not_mem_nil, or_false] at hp
    rcases hp with h | h | h | h | h | h <;> subst h <;> simp [DBWriter.bound, event_row]
  simp only [hb, Option.some.injEq]
  obtain ⟨h1, h2, h3, h4⟩ := nullable_cases p.2
  exact ⟨h1, h2, h3, zero_trichotomy p.2, fun x hx => (h4 x hx).2⟩

/-- C9, at `hrv = -1.0` on `writer0`: parameter 4 is bound to NULL. -/
theorem C9_optional_columns_witness :
    (writer0.write_event 1 Double.seventyTwo Double.negOne Double.negOne Double.negOne
        Double.zero Double.negOne Double.negOne false SQLITE_DONE glog0).1.bound 4
      = some SqlValue.null :=
  (C9_optional_columns writer0 1 Double.seventyTwo Double.negOne Double.negOne Double.negOne
    Double.zero Double.negOne Double.negOne false SQLITE_DONE glog0 (by decide)
    (4, Double.negOne) (by simp)).1 (by decide)

/-- C9 as stated fails at a NaN argument: NaN is not negative (`NaN < 0` is false), yet
`write_event` binds NULL for `hrv`, not the argument. -/
theorem C9_counterexample :
    Double.lt Double.qNaN Double.zero = false ∧
    (writer0.write_event 1 Double.seventyTwo Double.qNaN Double.negOne Double.negOne
        Double.zero Double.negOne Double.negOne false SQLITE_DONE glog0).1.bound 4
      = some SqlValue.null ∧
    (writer0.write_event 1 Double.seventyTwo Double.qNaN Double.negOne Double.negOne
        Double.zero Double.negOne Double.negOne false SQLITE_DONE glog0).1.bound 4
      ≠ some (SqlValue.real Double.qNaN) := by
  decide

/-- C10: for every snapshot and timestamp, the row `on_metrics_received` binds on a ready writer
has hrv (4), phasic (6), engagement (8) and blink_rate (9) NULL, emotion_score (7) equal to `0.0`
and is_talking (10) equal to the integer 0. -/
theorem C10_placeholder_columns (m : MetricsBuffer) (ts : Int) (w : DBWriter) (rc : Int)
    (g : Glog) (hw : w.ready = true) :
    (on_metrics_received m ts w rc g).2.1.bound 4 = some SqlValue.null ∧
    (on_metrics_received m ts w rc g).2.1.bound 6 = some SqlValue.null ∧
    (on_metrics_received m ts w rc g).2.1.bound 8 = some SqlValue.null ∧
    (on_metrics_received m ts w rc g).2.1.bound 9 = some SqlValue.null ∧
    (on_metrics_received m ts w rc g).2.1.bound 7 = some (SqlValue.real Double.zero) ∧
    (on_metrics_received m ts w rc g).2.1.bound 10 = some (SqlValue.integer 0) := by
  obtain ⟨d, s, hd, hs, hl⟩ := (ready_iff w).1 hw
  rw [on_metrics_received_eq w d s hd hs hl]
  simp [DBWriter.bound, frame_row]

/-- C10, at a frame with pulse 72.0 on `writer0`: hrv is bound to NULL. -/
theorem C10_placeholder_columns_witness :
    (on_metrics_received ⟨some Double.seventyTwo, some Double.seventyTwo⟩ 1500 writer0
        SQLITE_DONE glog0).2.1.bound 4 = some SqlValue.null :=
  (C10_placeholder_columns ⟨some Double.seventyTwo, some Double.seventyTwo⟩ 1500 writer0
    SQLITE_DONE glog0 (by decide)).1

/-- C7: whenever the parsed `api_key` or the parsed `session_id` is empty, `main` prints the
usage text and returns 1 with no `DBWriter` constructor call made (so the store is never opened)
and no writer object existing. The value is empty in particular when no argument after
`argv[0]` carries the flag, and when the last argument carrying it has nothing after the `=`. -/
theorem C7_missing_config_exit (argv : List CppString) (sqlite : SqliteEnv) (sdk : SdkEnv) :
    (((parse_args argv).api_key = [] ∨ (parse_args argv).session_id = []) →
      (main argv sqlite sdk).exit = Exit.returned 1 ∧
      (main argv sqlite sdk).constructor_calls = [] ∧
      (main argv sqlite sdk).db_writer = none ∧
      (main argv sqlite sdk).stderr = [usage_text]) ∧
    ((∀ a ∈ argv.drop 1, find_at_zero a "--api_key=".toList = false) →
      (parse_args argv).api_key = []) ∧
    ((∀ a ∈ argv.drop 1, find_at_zero a "--session_id=".toList = false) →
      (parse_args argv).session_id = []) ∧
    (∀ pre post : List CppString, pre ≠ [] → argv = pre ++ ["--api_key=".toList] ++ post →
      (∀ a ∈ post, find_at_zero a "--api_key=".toList = false) →
      (parse_args argv).api_key = []) ∧
    (∀ pre post : List CppString, pre ≠ [] → argv = pre ++ ["--session_id=".toList] ++ post →
      (∀ a ∈ post, find_at_zero a "--session_id=".toList = false) →
      (parse_args argv).session_id = []) := by
  refine ⟨?_, ?_, ?_, ?_, ?_⟩
  · intro h
    have he : ((parse_args argv).api_key.isEmpty || (parse_args argv).session_id.isEmpty)
        = true := by
      rcases h with h | h <;> simp [h]
    simp [main, he]
  · intro h
    unfold parse_args
    rw [foldl_api_key_keep _ _ h]
  · intro h
    unfold parse_args
    rw [foldl_session_id_keep _ _ h]
  · intro pre post hpre hargv hpost
    subst hargv
    unfold parse_args
    rw [List.append_assoc, drop_one_append pre _ hpre, List.foldl_append, List.singleton_append,
      List.foldl_cons, foldl_api_key_keep _ _ hpost, parse_arg_api_key]
    have hf : find_at_zero "--api_key=".toList "--api_key=".toList = true := by decide
    rw [if_pos hf]
    decide
  · intro pre post hpre hargv hpost
    subst hargv
    unfold parse_args
    rw [List.append_assoc, drop_one_append pre _ hpre, List.foldl_append, List.singleton_append,
      List.foldl_cons, foldl_session_id_keep _ _ hpost, parse_arg_session_id]
    have hf : find_at_zero "--session_id=".toList "--session_id=".toList = true := by decide
    rw [if_pos hf]
    decide

/-- C7, at the command line `prog --api_key=KEY` (no session id): exit code 1, no constructor
call. -/
theorem C7_missing_config_exit_witness :
    (main ["prog".toList, "--api_key=KEY".toList] env_ok ⟨Status.OkStatus, Status.OkStatus, []⟩).exit
        = Exit.returned 1 ∧
    (main ["prog".toList, "--api_key=KEY".toList] env_ok
        ⟨Status.OkStatus, Status.OkStatus, []⟩).constructor_calls = [] :=
  have h := (C7_missing_config_exit ["prog".toList, "--api_key=KEY".toList] env_ok
    ⟨Status.OkStatus, Status.OkStatus, []⟩).1 (Or.inr (by decide))
  ⟨h.1, h.2.1⟩

/-- C4, amended: on the writer constructed with session id `sid`, `N` sequential adapter calls
are exactly `N` `write_event` calls and `N` executions of the insert statement, every one with
`sid` bound to the session column; the rows appended to the store are exactly those of the calls
whose insert returned `SQLITE_DONE`, in order, each tagged with `sid`; so exactly `N` rows are
appended when every insert succeeds. -/
theorem C4_rows_per_successful_insert (db_path sid : CppString) (env : SqliteEnv)
    (g g1 : Glog) (w : DBWriter) (frames : List Frame)
    (hc : DBWriter.ctor db_path sid env g = Except.ok (w, g1)) :
    (deliver frames w g1).1.write_event_calls = frames.length ∧
    (deliver frames w g1).1.executed = frames.map (frame_row sid) ∧
    (deliver frames w g1).1.executed.length = frames.length ∧
    (∀ r ∈ (deliver frames w g1).1.executed, r.head? = some (SqlValue.text sid)) ∧
    (deliver frames w g1).1.rows = env.store.physiology_events ++
      (frames.filter (fun f => decide (f.step_rc = SQLITE_DONE))).map (frame_row sid) ∧
    (∀ r ∈ (frames.filter (fun f => decide (f.step_rc = SQLITE_DONE))).map (frame_row sid),
      r.head? = some (SqlValue.text sid)) ∧
    ((∀ f ∈ frames, f.step_rc = SQLITE_DONE) →
      (deliver frames w g1).1.rows.length
        = env.store.physiology_events.length + frames.length) := by
  obtain ⟨-, -, hw, hsid, hrows, hex, hcalls⟩ := ctor_ok db_path sid env g w g1 hc
  obtain ⟨-, -, d3, d4, d5⟩ := deliver_spec frames w g1 hw
  rw [hsid] at d3 d4
  rw [hrows] at d3
  rw [hex] at d4
  rw [hcalls] at d5
  have hhead : ∀ (l : List Frame), ∀ r ∈ l.map (frame_row sid),
      r.head? = some (SqlValue.text sid) := by
    intro l r hr
    obtain ⟨f, -, hf⟩ := List.mem_map.1 hr
    rw [← hf]
    rfl
  refine ⟨by omega, by simpa using d4, by simp [d4], ?_, d3, hhead _, ?_⟩
  · intro r hr
    rw [d4] at hr
    exact hhead frames r (by simpa using hr)
  · intro hall
    have hfil : frames.filter (fun f => decide (f.step_rc = SQLITE_DONE)) = frames := by
      rw [List.filter_eq_self]
      intro f hf
      simp [hall f hf]
    rw [d3, hfil]
    simp

/-- C4, on the writer constructed for session `abc123` on an empty store, with two frames whose
inserts succeed: two rows are in the store. -/
theorem C4_rows_per_successful_insert_witness :
    (deliver [frame_empty SQLITE_DONE, frame_empty SQLITE_DONE] writer0
        (LOG glog0 LogSeverity.INFO "✅ DBWriter initialized for session: ")).1.rows.length
      = 0 + 2 :=
  (C4_rows_per_successful_insert "x.db".toList "abc123".toList env_ok glog0
    (LOG glog0 LogSeverity.INFO "✅ DBWriter initialized for session: ") writer0
    [frame_empty SQLITE_DONE, frame_empty SQLITE_DONE]
    (by simp [DBWriter.ctor, sqlite3_open, sqlite3_exec, sqlite3_prepare_v2, env_ok, writer0,
          show List.count '?' insert_sql.data = 10 from insert_sql_params])).2.2.2.2.2.2
    (by decide)

/-- C4 as stated fails when an insert fails: one adapter call whose `sqlite3_step` returns
`SQLITE_BUSY` on the writer for session `abc123` appends no row, so after `N = 1` calls the
store holds 0 new rows, not 1. -/
theorem C4_counterexample :
    DBWriter.ctor "x.db".toList "abc123".toList env_ok glog0
      = Except.ok (writer0, LOG glog0 LogSeverity.INFO "✅ DBWriter initialized for session: ") ∧
    writer0.rows = [] ∧
    (deliver [frame_empty SQLITE_BUSY] writer0
      (LOG glog0 LogSeverity.INFO "✅ DBWriter initialized for session: ")).1.write_event_calls
      = 1 ∧
    (deliver [frame_empty SQLITE_BUSY] writer0
      (LOG glog0 LogSeverity.INFO "✅ DBWriter initialized for session: ")).1.rows = [] ∧
    ¬ ((deliver [frame_empty SQLITE_BUSY] writer0
        (LOG glog0 LogSeverity.INFO "✅ DBWriter initialized for session: ")).1.rows.length
        = writer0.rows.length + [frame_empty SQLITE_BUSY].length) := by
  refine ⟨?_, by decide, by decide, by decide, by decide⟩
  simp [DBWriter.ctor, sqlite3_open, sqlite3_exec, sqlite3_prepare_v2, env_ok, writer0,
    show List.count '?' insert_sql.data = 10 from insert_sql_params]

/-- C5: when the insert of call K fails (`sqlite3_step` returns anything but `SQLITE_DONE`) on a
ready writer, `write_event` returns with one warning logged, no row stored and the writer still
ready; the next call K+1 executes the insert again, and the ten values it binds are `event_row`
of the writer's session id and the arguments of call K+1 alone; that row is stored when its own
insert succeeds. -/
theorem C5_failed_insert_swallowed (w : DBWriter) (g : Glog)
    (tsK : Int) (hrK hrvK brK phK emK enK blK : Double) (talkK : Bool) (rcK : Int)
    (tsN : Int) (hrN hrvN brN phN emN enN blN : Double) (talkN : Bool) (rcN : Int)
    (hw : w.ready = true) (hfail : rcK ≠ SQLITE_DONE) :
    (w.write_event tsK hrK hrvK brK phK emK enK blK talkK rcK g).2
      = LOG g LogSeverity.WARNING "Failed to insert physiology event: " ∧
    (w.write_event tsK hrK hrvK brK phK emK enK blK talkK rcK g).1.rows = w.rows ∧
    (w.write_event tsK hrK hrvK brK phK emK enK blK talkK rcK g).1.ready = true ∧
    (w.write_event tsK hrK hrvK brK phK emK enK blK talkK rcK g).1.session_id_
      = w.session_id_ ∧
    ((w.write_event tsK hrK hrvK brK phK emK enK blK talkK rcK g).1.write_event
        tsN hrN hrvN brN phN emN enN blN talkN rcN
        (w.write_event tsK hrK hrvK brK phK emK enK blK talkK rcK g).2).1.executed
      = w.executed ++ [event_row w.session_id_ tsK hrK hrvK brK phK emK enK blK talkK,
                       event_row w.session_id_ tsN hrN hrvN brN phN emN enN blN talkN] ∧
    (∀ idx : Nat,
      ((w.write_event tsK hrK hrvK brK phK emK enK blK talkK rcK g).1.write_event
          tsN hrN hrvN brN phN emN enN blN talkN rcN
          (w.write_event tsK hrK hrvK brK phK emK enK blK talkK rcK g).2).1.bound idx
        = (event_row w.session_id_ tsN hrN hrvN brN phN emN enN blN talkN)[idx - 1]?) ∧
    (rcN = SQLITE_DONE →
      ((w.write_event tsK hrK hrvK brK phK emK enK blK talkK rcK g).1.write_event
          tsN hrN hrvN brN phN emN enN blN talkN rcN
          (w.write_event tsK hrK hrvK brK phK emK enK blK talkK rcK g).2).1.rows
        = w.rows ++ [event_row w.session_id_ tsN hrN hrvN brN phN emN enN blN talkN]) := by
  obtain ⟨d, s, hd, hs, hl⟩ := (ready_iff w).1 hw
  have h1 := write_event_eq w d s hd hs hl tsK hrK hrvK brK phK emK enK blK talkK rcK g
  simp only [hfail, if_false] at h1
  rw [h1]
  have h2 := write_event_eq
    { db_ := some { d with physiology_events := d.physiology_events },
      insert_stmt_ := some
        { params := event_row w.session_id_ tsK hrK hrvK brK phK emK enK blK talkK, busy := true,
          executed := s.executed ++ [event_row w.session_id_ tsK hrK hrvK brK phK emK enK blK talkK] },
      session_id_ := w.session_id_,
      write_event_calls := w.write_event_calls + 1 }
    { d with physiology_events := d.physiology_events }
    { params := event_row w.session_id_ tsK hrK hrvK brK phK emK enK blK talkK, busy := true,
      executed := s.executed ++ [event_row w.session_id_ tsK hrK hrvK brK phK emK enK blK talkK] }
    rfl rfl (by simp [event_row]) tsN hrN hrvN brN phN emN enN blN talkN rcN
    (LOG g LogSeverity.WARNING "Failed to insert physiology event: ")
  rw [h2]
  refine ⟨rfl, ?_, ?_, rfl, ?_, ?_, ?_⟩
  · simp [DBWriter.rows, hd]
  · simp [DBWriter.ready, event_row]
  · simp [DBWriter.executed, hs]
  · intro idx
    simp [DBWriter.bound]
  · intro hN
    simp [DBWriter.rows, hd, hN]

/-- C5, on `writer0`: call K (heart rate 72.0) meets `SQLITE_BUSY`, call K+1 (no data, talking)
succeeds; the store then holds exactly the row of call K+1. -/
theorem C5_failed_insert_swallowed_witness :
    ((writer0.write_event 1 Double.seventyTwo Double.negOne Double.negOne Double.negOne
          Double.zero Double.negOne Double.negOne false SQLITE_BUSY glog0).1.write_event
        2 Double.negOne Double.negOne Double.negOne Double.negOne Double.negOne Double.negOne
        Double.negOne true SQLITE_DONE
        (writer0.write_event 1 Double.seventyTwo Double.negOne Double.negOne Double.negOne
          Double.zero Double.negOne Double.negOne false SQLITE_BUSY glog0).2).1.rows
      = writer0.rows ++ [event_row writer0.session_id_ 2 Double.negOne Double.negOne
          Double.negOne Double.negOne Double.negOne Double.negOne Double.negOne true] :=
  (C5_failed_insert_swallowed writer0 glog0
    1 Double.seventyTwo Double.negOne Double.negOne Double.negOne Double.zero Double.negOne
    Double.negOne false SQLITE_BUSY
    2 Double.negOne Double.negOne Double.negOne Double.negOne Double.negOne Double.negOne
    Double.negOne true SQLITE_DONE (by decide) (by decide)).2.2.2.2.2.2 rfl

/-- C8: when `sqlite3_open` or `sqlite3_prepare_v2` does not return `SQLITE_OK`, the constructor
ends in `LOG(FATAL)` and yields no `DBWriter`, and `main` then has no writer and does not reach
the capture run; every writer the constructor does yield has an open connection and a prepared
insert statement, and keeps them through every `write_event` call. -/
theorem C8_construction_fatal (db_path sid : CppString) (env : SqliteEnv) (g : Glog) :
    ((env.open_rc ≠ SQLITE_OK ∨ env.prepare_rc ≠ SQLITE_OK) →
      (∃ text, DBWriter.ctor db_path sid env g = Except.error (LOG g LogSeverity.FATAL text)) ∧
      (∀ w g1, DBWriter.ctor db_path sid env g ≠ Except.ok (w, g1)) ∧
      (∀ argv sdk, (main argv env sdk).db_writer = none ∧
        (main argv env sdk).exit ≠ Exit.returned 0)) ∧
    (∀ w g1, DBWriter.ctor db_path sid env g = Except.ok (w, g1) →
      env.open_rc = SQLITE_OK ∧ env.prepare_rc = SQLITE_OK ∧
      w.db_ ≠ none ∧ w.insert_stmt_ ≠ none ∧ w.ready = true ∧
      ∀ (ts : Int) (hr hrv br ph em en bl : Double) (talk : Bool) (rc : Int) (g2 : Glog),
        (w.write_event ts hr hrv br ph em en bl talk rc g2).1.ready = true) := by
  constructor
  · intro h
    refine ⟨?_, ?_, ?_⟩
    · rcases ctor_fatal db_path sid env g h with h1 | h1
      · exact ⟨_, h1⟩
      · exact ⟨_, h1⟩
    · intro w g1 hok
      rcases ctor_fatal db_path sid env g h with h1 | h1 <;> rw [h1] at hok <;> cases hok
    · intro argv sdk
      unfold main
      by_cases he : ((parse_args argv).api_key.isEmpty || (parse_args argv).session_id.isEmpty)
          = true
      · simp [he]
      · rcases ctor_fatal (parse_args argv).db_path (parse_args argv).session_id env
          { lines := [], occurrences_mod_n := 0 } h with h1 | h1 <;> simp [he, h1]
  · intro w g1 hok
    obtain ⟨ho, hp, hw, -⟩ := ctor_ok db_path sid env g w g1 hok
    obtain ⟨d, s, hd, hs, hl⟩ := (ready_iff w).1 hw
    refine ⟨ho, hp, by simp [hd], by simp [hs], hw, ?_⟩
    intro ts hr hrv br ph em en bl talk rc g2
    rw [write_event_eq w d s hd hs hl]
    simp [DBWriter.ready, event_row]

/-- C8, at a store that cannot be opened (`SQLITE_CANTOPEN`): the constructor ends in a FATAL
log line and yields no writer. -/
theorem C8_construction_fatal_witness :
    ∃ text, DBWriter.ctor "x.db".toList "abc123".toList
      { open_rc := SQLITE_CANTOPEN, store := env_ok.store, prepare_rc := SQLITE_OK } glog0
      = Except.error (LOG glog0 LogSeverity.FATAL text) :=
  ((C8_construction_fatal "x.db".toList "abc123".toList
    { open_rc := SQLITE_CANTOPEN, store := env_ok.store, prepare_rc := SQLITE_OK } glog0).1
    (Or.inl (by decide))).1

end ADPitch
